import Mathlib

/-!
Verification of the movie-catalog backend (schemas, settings, database
session wiring, pagination) against its natural-language specification.

The Python sources are shallowly embedded:
  * Python strings are lists of Unicode code points (`PyStr`), with ASCII
    models of `str.upper` and `str.title`;
  * `datetime.date` is a record of year/month/day; `datetime.now().year`
    becomes an explicit `currentYear` parameter;
  * pydantic validation of a typed payload is a function returning
    `Except (List PyStr) α`, collecting one error tag per violated field,
    mirroring which `Field` constraints and `field_validator`s each schema
    actually declares;
  * `os.environ` is a function `String → Option String` (`Env`).
-/

/-- Python strings, modelled as lists of Unicode code points. -/
abbrev PyStr := List Nat

/-- Convert a Lean string literal to the code-point model. -/
def pyOfString (s : String) : PyStr := s.data.map Char.toNat

/-- ASCII model of the per-character case map used by Python `str.upper`. -/
def upperChar (c : Nat) : Nat := if 97 ≤ c ∧ c ≤ 122 then c - 32 else c

/-- ASCII model of the per-character case map used by Python `str.lower`. -/
def lowerChar (c : Nat) : Nat := if 65 ≤ c ∧ c ≤ 90 then c + 32 else c

/-- ASCII model of Python's letter test used by `str.title` word detection. -/
def isAlphaN (c : Nat) : Bool := decide ((65 ≤ c ∧ c ≤ 90) ∨ (97 ≤ c ∧ c ≤ 122))

/-- Model of Python `str.upper`: uppercase every character. -/
def pyUpper (s : PyStr) : PyStr := s.map upperChar

/-- Worker for `pyTitle`; the flag records whether the previous character
was a letter (i.e. whether we are inside a word). -/
def titleAux : Bool → PyStr → PyStr
  | _, [] => []
  | prev, c :: rest =>
      (if isAlphaN c then (if prev then lowerChar c else upperChar c) else c)
        :: titleAux (isAlphaN c) rest

/-- Model of Python `str.title`: the first letter of every maximal run of
letters is uppercased, the remaining letters of the run are lowercased. -/
def pyTitle (s : PyStr) : PyStr := titleAux false s

/-- Decimal digits of a natural number as code points. -/
def natToStr (n : Nat) : PyStr := (Nat.toDigits 10 n).map Char.toNat

/-- Model of Python `str(i)` for integers. -/
def intToStr (i : Int) : PyStr :=
  if i < 0 then 45 :: natToStr i.natAbs else natToStr i.natAbs

/-- Model of `datetime.date`: a calendar date record; only the year is
inspected by any validator in the sources. -/
structure PyDate where
  year : Int
  month : Nat
  day : Nat
deriving DecidableEq, Repr

/-- Modelled from the spec: `status` is an "enum of fixed lifecycle states"
(`database.models.MovieStatusEnum` is imported by `schemas/movies.py` but its
definition is not among the provided sources). -/
inductive MovieStatusEnum
  | released
  | postProduction
  | inProduction
deriving DecidableEq, Repr

/-- One error tag per violated field, as pydantic enumerates every violated
field rather than stopping at the first. -/
def checkField (ok : Prop) [Decidable ok] (tag : PyStr) : List PyStr :=
  if ok then [] else [tag]

/-- Embedding of `MovieBaseSchema.validate_date` (schemas/movies.py):
`datetime.now().year` is passed explicitly as `currentYear`; a date whose
year exceeds `currentYear + 1` is rejected with a message embedding the
boundary year `currentYear + 1`. -/
def validate_date (currentYear : Int) (value : PyDate) : Except PyStr PyDate :=
  if value.year > currentYear + 1 then
    .error (pyOfString "The year in " ++ [39] ++ pyOfString "date" ++ [39]
      ++ pyOfString " cannot be greater than " ++ intToStr (currentYear + 1)
      ++ pyOfString ".")
  else
    .ok value

/-- Typed payload of `MovieBaseSchema` (shared base of `MovieDetailSchema`). -/
structure MovieBaseInput where
  name : PyStr
  date : PyDate
  score : ℚ
  overview : PyStr
  status : MovieStatusEnum
  budget : ℚ
  revenue : ℚ
deriving DecidableEq, Repr

/-- Embedding of `MovieBaseSchema` validation: the declared `Field`
constraints (`name` max_length 255, `score` in [0,100], `budget ≥ 0`,
`revenue ≥ 0`) plus the `validate_date` field validator. -/
def validateMovieBase (currentYear : Int) (m : MovieBaseInput) :
    Except (List PyStr) MovieBaseInput :=
  let errs :=
    checkField (m.name.length ≤ 255) (pyOfString "name")
    ++ checkField (0 ≤ m.score ∧ m.score ≤ 100) (pyOfString "score")
    ++ checkField (0 ≤ m.budget) (pyOfString "budget")
    ++ checkField (0 ≤ m.revenue) (pyOfString "revenue")
    ++ (match validate_date currentYear m.date with
        | .ok _ => []
        | .error e => [e])
  if errs.isEmpty then .ok m else .error errs

/-- Typed payload of `MovieCreateSchema`. Unlike `MovieBaseSchema`, this
class repeats its field declarations instead of inheriting them: its `name`
carries no `max_length` and it declares no date validator. -/
structure MovieCreateInput where
  name : PyStr
  date : PyDate
  score : ℚ
  overview : PyStr
  status : MovieStatusEnum
  budget : ℚ
  revenue : ℚ
  country : PyStr
  genres : List PyStr
  actors : List PyStr
  languages : List PyStr
deriving DecidableEq, Repr

/-- Embedding of `MovieCreateSchema.normalize_country` (mode "before"). -/
def normalize_country (value : PyStr) : PyStr := pyUpper value

/-- Embedding of `MovieCreateSchema.normalize_list_fields` (mode "before"),
shared by `genres`, `actors` and `languages`. -/
def normalize_list_fields (value : List PyStr) : List PyStr :=
  value.map pyTitle

/-- Embedding of `MovieCreateSchema` validation: the "before" normalizers
run on `country`/`genres`/`actors`/`languages`, then the declared `Field`
constraints are checked (`score` in [0,100], `budget ≥ 0`, `revenue ≥ 0`;
`name`, `date`, `overview`, `country` and the three lists carry no
constraint in this class). -/
def validateMovieCreate (m : MovieCreateInput) :
    Except (List PyStr) MovieCreateInput :=
  let errs :=
    checkField (0 ≤ m.score ∧ m.score ≤ 100) (pyOfString "score")
    ++ checkField (0 ≤ m.budget) (pyOfString "budget")
    ++ checkField (0 ≤ m.revenue) (pyOfString "revenue")
  if errs.isEmpty then
    .ok { m with
          country := normalize_country m.country
          genres := normalize_list_fields m.genres
          actors := normalize_list_fields m.actors
          languages := normalize_list_fields m.languages }
  else .error errs

/-- Typed payload of `MovieUpdateSchema`: every field optional, defaulting
to absent (`None`). -/
structure MovieUpdateInput where
  name : Option PyStr := none
  date : Option PyDate := none
  score : Option ℚ := none
  overview : Option PyStr := none
  status : Option MovieStatusEnum := none
  budget : Option ℚ := none
  revenue : Option ℚ := none
deriving DecidableEq, Repr

/-- Embedding of `MovieUpdateSchema` validation: `score`/`budget`/`revenue`
bounds apply only when the field is present; `name` (plain `Optional[str]`),
`date`, `overview` and `status` carry no constraint. -/
def validateMovieUpdate (m : MovieUpdateInput) :
    Except (List PyStr) MovieUpdateInput :=
  let errs :=
    (match m.score with
     | none => []
     | some s => checkField (0 ≤ s ∧ s ≤ 100) (pyOfString "score"))
    ++ (match m.budget with
        | none => []
        | some b => checkField (0 ≤ b) (pyOfString "budget"))
    ++ (match m.revenue with
        | none => []
        | some r => checkField (0 ≤ r) (pyOfString "revenue"))
  if errs.isEmpty then .ok m else .error errs

/-- Typed payload of `MovieListItemSchema`: the reduced projection
`id, name, date, score, overview`. -/
structure MovieListItem where
  id : Int
  name : PyStr
  date : PyDate
  score : ℚ
  overview : PyStr
deriving DecidableEq, Repr

/-- Embedding of `MovieListItemSchema` validation: the class declares its
five fields with plain type annotations, no `Field` constraint and no
`field_validator`, so the error list is empty by construction. -/
def validateMovieListItem (m : MovieListItem) :
    Except (List PyStr) MovieListItem :=
  let errs : List PyStr := []
  if errs.isEmpty then .ok m else .error errs

/-- The process environment: a partial map from variable names to values. -/
structure Env where
  lookup : String → Option String

/-- Model of `os.getenv(key, default)`. -/
def envGet (env : Env) (key dflt : String) : String :=
  (env.lookup key).getD dflt

/-- Model of Python `int(s)` on a string: optional sign followed by a
non-empty run of decimal digits parses; anything else raises `ValueError`
(surfaced as `Except.error`). -/
def pyIntParse (s : String) : Except String Int :=
  let chars := s.data
  let signed : Bool × List Char :=
    match chars with
    | c :: rest =>
        if c = '-' then (true, rest)
        else if c = '+' then (false, rest) else (false, chars)
    | [] => (false, [])
  if signed.2 ≠ [] ∧ signed.2.all Char.isDigit then
    let n : Nat := signed.2.foldl (fun acc c => acc * 10 + (c.toNat - 48)) 0
    .ok (if signed.1 then -(n : Int) else (n : Int))
  else
    .error ("invalid literal for int with base 10: " ++ s)

/-- `BASE_DIR` of `config/settings.py`: the package directory computed from
`__file__`; modelled as an abstract root path. -/
def BASE_DIR : String := "src"

/-- Embedding of `BaseAppSettings` (config/settings.py): two path fields
with defaults derived from `BASE_DIR`. -/
structure BaseAppSettings where
  PATH_TO_DB : String
  PATH_TO_MOVIES_CSV : String
deriving DecidableEq, Repr

/-- Default `PATH_TO_DB` from `BaseAppSettings`. -/
def defaultPathToDb : String := BASE_DIR ++ "/database/source/theater.db"

/-- Default `PATH_TO_MOVIES_CSV` from `BaseAppSettings`. -/
def defaultPathToMoviesCsv : String :=
  BASE_DIR ++ "/database/seed_data/imdb_movies.csv"

/-- Constructing `BaseAppSettings`: pydantic-settings lets matching
environment variables override the field defaults. -/
def mkBaseAppSettings (env : Env) : BaseAppSettings :=
  { PATH_TO_DB := envGet env "PATH_TO_DB" defaultPathToDb
    PATH_TO_MOVIES_CSV := envGet env "PATH_TO_MOVIES_CSV" defaultPathToMoviesCsv }

/-- Embedding of the production `Settings` class: base paths plus the five
Postgres fields. -/
structure Settings where
  base : BaseAppSettings
  POSTGRES_USER : String
  POSTGRES_PASSWORD : String
  POSTGRES_HOST : String
  POSTGRES_DB_PORT : Int
  POSTGRES_DB : String
deriving DecidableEq, Repr

/-- Constructing the production `Settings`: each Postgres variable is read
with a hardcoded fallback; `POSTGRES_DB_PORT` is passed through `int(...)`,
so a set but non-integer value raises at construction time, and an absent
value yields the integer default 5432 (`int(5432) = 5432`). -/
def mkSettings (env : Env) : Except String Settings :=
  match (match env.lookup "POSTGRES_DB_PORT" with
         | none => Except.ok (5432 : Int)
         | some v => pyIntParse v) with
  | .error e => .error e
  | .ok port => .ok
    { base := mkBaseAppSettings env
      POSTGRES_USER := envGet env "POSTGRES_USER" "test_user"
      POSTGRES_PASSWORD := envGet env "POSTGRES_PASSWORD" "test_password"
      POSTGRES_HOST := envGet env "POSTGRES_HOST" "test_host"
      POSTGRES_DB_PORT := port
      POSTGRES_DB := envGet env "POSTGRES_DB" "test_db" }

/-- Constructing `TestingSettings`: after base construction,
`model_post_init` force-overrides `PATH_TO_DB` to the in-memory marker and
`PATH_TO_MOVIES_CSV` to the test fixture, whatever the environment holds. -/
def mkTestingSettings (env : Env) : BaseAppSettings :=
  let base := mkBaseAppSettings env
  { base with
    PATH_TO_DB := ":memory:"
    PATH_TO_MOVIES_CSV := BASE_DIR ++ "/database/seed_data/test_data.csv" }

/-- The two variants `get_settings` can return. -/
inductive AppSettings
  | production (s : Settings)
  | testing (s : BaseAppSettings)
deriving DecidableEq, Repr

/-- Embedding of `get_settings()`: reads `ENVIRONMENT` (default
"developing"); exactly the value "testing" selects `TestingSettings`,
anything else selects the production `Settings`. -/
def get_settings (env : Env) : Except String AppSettings :=
  if envGet env "ENVIRONMENT" "developing" = "testing" then
    .ok (.testing (mkTestingSettings env))
  else
    (mkSettings env).map .production

/-- Which backend module a database operation was imported from. -/
inductive Backend
  | sqlite
  | postgresql
deriving DecidableEq, Repr

/-- The three operations `database/__init__.py` exposes, each tagged with
the backend implementation it is bound to. -/
structure DbModule where
  get_db : Backend
  get_db_contextmanager : Backend
  reset_database : Backend
deriving DecidableEq, Repr

/-- Embedding of the module-load-time binding in `database/__init__.py`:
`reset_database` is imported from `database.session_sqlite` unconditionally,
before the `if`; only `get_db` and `get_db_contextmanager` are switched on
the `ENVIRONMENT` discriminator. -/
def initDbModule (env : Env) : DbModule :=
  let environment := envGet env "ENVIRONMENT" "developing"
  { reset_database := .sqlite
    get_db := if environment = "testing" then .sqlite else .postgresql
    get_db_contextmanager :=
      if environment = "testing" then .sqlite else .postgresql }

/-- Embedding of `MovieListResponseSchema`: the paginated envelope shape. -/
structure MovieListResponse where
  movies : List MovieListItem
  prev_page : Option PyStr
  next_page : Option PyStr
  total_pages : Nat
  total_items : Nat
deriving DecidableEq, Repr

/-- Modelled from the spec: the construction of the pagination envelope
lives in the routing layer, which is not among the provided sources (only
the `MovieListResponseSchema` shape is). Given the full ordered result set,
a 1-based page number and a page size: `total_pages` is the ceiling of
`total_items / perPage`; `prev_page` is null iff the page is the first,
`next_page` is null iff it is the last; `movies` is the slice for the
requested page. Page references are opaque strings decided elsewhere; here
the target page number rendered as a string stands in for them. -/
def paginate (items : List MovieListItem) (page perPage : Nat) :
    MovieListResponse :=
  let totalItems := items.length
  let totalPages := (totalItems + perPage - 1) / perPage
  { movies := (items.drop ((page - 1) * perPage)).take perPage
    prev_page := if page = 1 then none else some (natToStr (page - 1))
    next_page := if page < totalPages then some (natToStr (page + 1)) else none
    total_pages := totalPages
    total_items := totalItems }

/-- A create payload whose date is far in the future but whose numeric
fields all satisfy their declared bounds. -/
def sampleFutureCreate : MovieCreateInput :=
  { name := pyOfString "Inception"
    date := { year := 9999, month := 1, day := 1 }
    score := 80
    overview := pyOfString "A mind-bending thriller."
    status := .released
    budget := 160000000
    revenue := 825532764
    country := pyOfString "us"
    genres := [pyOfString "sci-fi", pyOfString "ACTION"]
    actors := [pyOfString "leonardo dicaprio"]
    languages := [pyOfString "english"] }

/-- A 256-character name, one character beyond the 255 bound. -/
def longName : PyStr := List.replicate 256 97

/-- A create payload with a 256-character name and an in-range date. -/
def sampleLongNameCreate : MovieCreateInput :=
  { sampleFutureCreate with
    name := longName
    date := { year := 2020, month := 5, day := 1 } }

/-- A `MovieBaseSchema` payload with a 256-character name. -/
def sampleLongBase : MovieBaseInput :=
  { name := longName
    date := { year := 2020, month := 5, day := 1 }
    score := 50
    overview := pyOfString "x"
    status := .released
    budget := 0
    revenue := 0 }

/-- A stand-in list item used to build concrete result sets. -/
def mkItem (i : Nat) : MovieListItem :=
  { id := (i : Int)
    name := natToStr i
    date := { year := 2020, month := 1, day := 1 }
    score := 50
    overview := [] }

/-- A concrete full result set of 25 items. -/
def items25 : List MovieListItem := (List.range 25).map mkItem

/-- An empty environment: every variable absent. -/
def envEmpty : Env := ⟨fun _ => none⟩

/-- An environment selecting "testing" while every other variable is set
to an arbitrary unrelated value. -/
def envTesting : Env :=
  ⟨fun k => if k = "ENVIRONMENT" then some "testing" else some "unrelated"⟩

/-- An environment whose only setting is a non-integer port override. -/
def envBadPort : Env :=
  ⟨fun k => if k = "POSTGRES_DB_PORT" then some "abc" else none⟩

theorem upperChar_idem (c : Nat) : upperChar (upperChar c) = upperChar c := by
  unfold upperChar
  split_ifs with h1 h2 <;> omega

theorem lowerChar_idem (c : Nat) : lowerChar (lowerChar c) = lowerChar c := by
  unfold lowerChar
  split_ifs with h1 h2 <;> omega

theorem isAlphaN_upperChar (c : Nat) : isAlphaN (upperChar c) = isAlphaN c := by
  unfold isAlphaN upperChar
  rw [decide_eq_decide]
  split_ifs with h <;> omega

theorem isAlphaN_lowerChar (c : Nat) : isAlphaN (lowerChar c) = isAlphaN c := by
  unfold isAlphaN lowerChar
  rw [decide_eq_decide]
  split_ifs with h <;> omega

theorem pyUpper_idem (s : PyStr) : pyUpper (pyUpper s) = pyUpper s := by
  unfold pyUpper
  rw [List.map_map]
  apply List.map_congr_left
  intro c _
  exact upperChar_idem c

theorem titleAux_idem (s : PyStr) :
    ∀ prev : Bool, titleAux prev (titleAux prev s) = titleAux prev s := by
  induction s with
  | nil => intro prev; rfl
  | cons c rest ih =>
      intro prev
      unfold titleAux
      by_cases hc : isAlphaN c
      · by_cases hp : prev = true
        · simp only [hc, hp, if_true, titleAux, isAlphaN_lowerChar c, lowerChar_idem c]
          rw [ih true]
        · have hp' : prev = false := by revert hp; cases prev <;> simp
          simp only [hc, hp', if_true, if_false, Bool.false_eq_true, titleAux,
            isAlphaN_upperChar c, upperChar_idem c]
          rw [ih true]
      · have hc' : isAlphaN c = false := by revert hc; cases isAlphaN c <;> simp
        simp only [hc', if_false, Bool.false_eq_true, titleAux]
        rw [ih false]

theorem pyTitle_idem (s : PyStr) : pyTitle (pyTitle s) = pyTitle s :=
  titleAux_idem s false

theorem validateMovieCreate_ok_iff (m : MovieCreateInput) :
    (∃ r, validateMovieCreate m = .ok r) ↔
      (0 ≤ m.score ∧ m.score ≤ 100 ∧ 0 ≤ m.budget ∧ 0 ≤ m.revenue) := by
  unfold validateMovieCreate checkField
  split_ifs with h1 h2 h3 h4 <;> simp_all

theorem validateMovieUpdate_ok_iff (m : MovieUpdateInput) :
    (∃ r, validateMovieUpdate m = .ok r) ↔
      ((∀ s ∈ m.score, 0 ≤ s ∧ s ≤ 100) ∧ (∀ b ∈ m.budget, 0 ≤ b) ∧
       (∀ v ∈ m.revenue, 0 ≤ v)) := by
  unfold validateMovieUpdate checkField
  rcases m with ⟨n, d, sc, ov, st, bu, re⟩
  cases sc <;> cases bu <;> cases re <;> simp <;> split_ifs <;> simp_all

/-- C1: for every current year and date, `validate_date` succeeds and
returns the date unchanged iff the date's year is at most
`currentYear + 1`; on failure the error message contains the computed
boundary year `currentYear + 1`. -/
theorem validate_date_spec (y : Int) (d : PyDate) :
    (validate_date y d = .ok d ↔ d.year ≤ y + 1) ∧
    (y + 1 < d.year →
      ∃ pre post, validate_date y d = .error (pre ++ intToStr (y + 1) ++ post)) := by
  constructor
  · constructor
    · intro h
      by_contra hy
      unfold validate_date at h
      rw [if_pos (by omega)] at h
      exact Except.noConfusion h
    · intro h
      unfold validate_date
      rw [if_neg (by omega)]
  · intro h
    refine ⟨pyOfString "The year in " ++ [39] ++ pyOfString "date" ++ [39]
      ++ pyOfString " cannot be greater than ", pyOfString ".", ?_⟩
    unfold validate_date
    rw [if_pos (by omega)]

/-- Witness for C1: evaluated at current year 2026, a 2027 date passes
unchanged and a 2030 date fails with the boundary 2027 in the message. -/
theorem validate_date_spec_witness :
    validate_date 2026 ⟨2027, 10, 12⟩ = .ok ⟨2027, 10, 12⟩ ∧
    (∃ pre post,
      validate_date 2026 ⟨2030, 1, 1⟩ = .error (pre ++ intToStr (2026 + 1) ++ post)) :=
  ⟨((validate_date_spec 2026 ⟨2027, 10, 12⟩).1).mpr (by decide),
   (validate_date_spec 2026 ⟨2030, 1, 1⟩).2 (by decide)⟩

/-- C2 counterexample: the claim predicts that any `MovieCreateSchema`
payload dated more than one year past the current year (2026 at the time of
writing) fails validation; `sampleFutureCreate`, dated 9999, validates
successfully because `MovieCreateSchema` declares no date validator. -/
theorem movieCreate_date_counterexample :
    ¬ (∀ m : MovieCreateInput, 2026 + 1 < m.date.year →
        ∃ e, validateMovieCreate m = .error e) := by
  intro h
  obtain ⟨e, he⟩ := h sampleFutureCreate (by decide)
  obtain ⟨r, hr⟩ := (validateMovieCreate_ok_iff sampleFutureCreate).mpr (by decide)
  rw [hr] at he
  exact Except.noConfusion he

/-- C2 amended: `MovieCreateSchema` performs no future-date check at all;
its validation succeeds iff the declared numeric `Field` bounds hold
(score in [0,100], budget ≥ 0, revenue ≥ 0), for every date value, and the
outcome is unchanged when the date is replaced by any other date. -/
theorem movieCreate_date_unchecked (m : MovieCreateInput) (d : PyDate) :
    ((∃ r, validateMovieCreate m = .ok r) ↔
      (0 ≤ m.score ∧ m.score ≤ 100 ∧ 0 ≤ m.budget ∧ 0 ≤ m.revenue)) ∧
    ((∃ r, validateMovieCreate { m with date := d } = .ok r) ↔
      (∃ r, validateMovieCreate m = .ok r)) := by
  constructor
  · exact validateMovieCreate_ok_iff m
  · rw [validateMovieCreate_ok_iff, validateMovieCreate_ok_iff]

/-- Witness for C2 amended: the payload dated 9999 with in-bound numeric
fields validates successfully. -/
theorem movieCreate_date_unchecked_witness :
    ∃ r, validateMovieCreate sampleFutureCreate = .ok r :=
  ((movieCreate_date_unchecked sampleFutureCreate ⟨2020, 1, 1⟩).1).mpr (by decide)

/-- C3 counterexample: the claim predicts that a `MovieCreateSchema`
payload whose name exceeds 255 characters fails validation;
`sampleLongNameCreate` has a 256-character name and validates successfully
because `MovieCreateSchema` declares `name: str` with no `max_length`. -/
theorem name_length_counterexample :
    ¬ (∀ m : MovieCreateInput, 255 < m.name.length →
        ∃ e, validateMovieCreate m = .error e) := by
  intro h
  obtain ⟨e, he⟩ := h sampleLongNameCreate
    (by simp only [sampleLongNameCreate, sampleFutureCreate, longName,
          List.length_replicate]; omega)
  obtain ⟨r, hr⟩ := (validateMovieCreate_ok_iff sampleLongNameCreate).mpr (by decide)
  rw [hr] at he
  exact Except.noConfusion he

/-- C3 amended: neither `MovieCreateSchema` nor `MovieUpdateSchema` bounds
the length of `name` (their outcomes depend only on the numeric bounds);
the 255-character bound is enforced only by `MovieBaseSchema` (and hence by
`MovieDetailSchema`), whose validation never succeeds on a longer name. -/
theorem name_length_unchecked (m : MovieCreateInput) (u : MovieUpdateInput)
    (y : Int) (b : MovieBaseInput) :
    ((∃ r, validateMovieCreate m = .ok r) ↔
      (0 ≤ m.score ∧ m.score ≤ 100 ∧ 0 ≤ m.budget ∧ 0 ≤ m.revenue)) ∧
    ((∃ r, validateMovieUpdate u = .ok r) ↔
      ((∀ s ∈ u.score, 0 ≤ s ∧ s ≤ 100) ∧ (∀ v ∈ u.budget, 0 ≤ v) ∧
       (∀ v ∈ u.revenue, 0 ≤ v))) ∧
    (255 < b.name.length → ∀ r, validateMovieBase y b ≠ .ok r) := by
  refine ⟨validateMovieCreate_ok_iff m, validateMovieUpdate_ok_iff u, ?_⟩
  intro hn r h
  have hname : ¬ (b.name.length ≤ 255) := by omega
  unfold validateMovieBase checkField at h
  rw [if_neg hname] at h
  simp at h

/-- Witness for C3 amended: the 256-character-name create payload
validates; the all-absent update payload validates; the same name is
rejected by `MovieBaseSchema`. -/
theorem name_length_unchecked_witness :
    (∃ r, validateMovieCreate sampleLongNameCreate = .ok r) ∧
    (∃ r, validateMovieUpdate {} = .ok r) ∧
    (∀ r, validateMovieBase 2026 sampleLongBase ≠ .ok r) := by
  have h := name_length_unchecked sampleLongNameCreate {} 2026 sampleLongBase
  exact ⟨h.1.mpr (by decide), h.2.1.mpr (by decide),
    h.2.2 (by simp only [sampleLongBase, longName, List.length_replicate]; omega)⟩

/-- C4: the `country` pre-validator returns the upper-cased input and is
idempotent. -/
theorem normalize_country_spec (c : PyStr) :
    normalize_country c = pyUpper c ∧
    normalize_country (normalize_country c) = normalize_country c :=
  ⟨rfl, pyUpper_idem c⟩

/-- C5: the `genres`/`actors`/`languages` pre-validator preserves length,
title-cases each element in place, and is idempotent. -/
theorem normalize_list_fields_spec (L : List PyStr) :
    (normalize_list_fields L).length = L.length ∧
    (∀ i : Nat, (normalize_list_fields L)[i]? = (L[i]?).map pyTitle) ∧
    normalize_list_fields (normalize_list_fields L) = normalize_list_fields L := by
  refine ⟨List.length_map _ _, ?_, ?_⟩
  · intro i
    simp [normalize_list_fields, List.getElem?_map]
  · unfold normalize_list_fields
    rw [List.map_map]
    apply List.map_congr_left
    intro s _
    exact pyTitle_idem s

/-- C6: for a full result set, a positive page size and an in-range page,
the envelope reports `total_items` as the set's size, `total_pages` as the
ceiling of `total_items / perPage`, `prev_page` null iff the page is the
first, `next_page` null iff it is the last, and `movies` as the requested
slice. -/
theorem paginate_spec (items : List MovieListItem) (page perPage : Nat)
    (_hpp : 0 < perPage) (_hp1 : 1 ≤ page)
    (hple : page ≤ items.length ⌈/⌉ perPage) :
    (paginate items page perPage).total_items = items.length ∧
    (paginate items page perPage).total_pages = items.length ⌈/⌉ perPage ∧
    ((paginate items page perPage).prev_page = none ↔ page = 1) ∧
    ((paginate items page perPage).next_page = none ↔
      page = items.length ⌈/⌉ perPage) ∧
    (paginate items page perPage).movies =
      (items.drop ((page - 1) * perPage)).take perPage := by
  rw [Nat.ceilDiv_eq_add_pred_div] at hple ⊢
  refine ⟨rfl, rfl, ?_, ?_, rfl⟩
  · by_cases h : page = 1
    · simp [paginate, h]
    · simp [paginate, h]
  · by_cases h : page < (items.length + perPage - 1) / perPage
    · have hne : page ≠ (items.length + perPage - 1) / perPage := Nat.ne_of_lt h
      simp [paginate, h, hne]
    · have heq : page = (items.length + perPage - 1) / perPage :=
        Nat.le_antisymm hple (Nat.le_of_not_lt h)
      simp [paginate, h, heq]

/-- Witness for C6: 25 items with page size 10, requesting page 3, yields
`total_pages = 3`, `next_page` null, `prev_page` non-null and a slice of
length 5. -/
theorem paginate_spec_witness :
    (paginate items25 3 10).total_items = 25 ∧
    (paginate items25 3 10).total_pages = 3 ∧
    (paginate items25 3 10).prev_page ≠ none ∧
    (paginate items25 3 10).next_page = none ∧
    (paginate items25 3 10).movies.length = 5 := by
  have h := paginate_spec items25 3 10 (by decide) (by decide) (by decide)
  refine ⟨?_, ?_, ?_, ?_, by decide⟩
  · rw [h.1]; decide
  · rw [h.2.1]; decide
  · intro hn
    exact absurd (h.2.2.1.mp hn) (by decide)
  · exact h.2.2.2.1.mpr (by decide)

/-- C7: `get_settings` with `ENVIRONMENT` set to "testing" returns the
testing variant whose database path is ":memory:" and whose seed path is
the `test_data.csv` fixture, whatever else the environment holds; with
`ENVIRONMENT` absent or any other value it returns the production
`Settings` variant. -/
theorem get_settings_spec (env : Env) :
    (env.lookup "ENVIRONMENT" = some "testing" →
      get_settings env = .ok (.testing (mkTestingSettings env)) ∧
      (mkTestingSettings env).PATH_TO_DB = ":memory:" ∧
      (mkTestingSettings env).PATH_TO_MOVIES_CSV =
        BASE_DIR ++ "/database/seed_data/test_data.csv") ∧
    (envGet env "ENVIRONMENT" "developing" ≠ "testing" →
      get_settings env = (mkSettings env).map AppSettings.production) := by
  constructor
  · intro h
    refine ⟨?_, rfl, rfl⟩
    unfold get_settings envGet
    rw [h]
    simp
  · intro h
    unfold get_settings
    rw [if_neg h]

/-- Witness for C7: with `ENVIRONMENT="testing"` and every other variable
set to an unrelated value, the testing paths come back; with an empty
environment the production variant comes back. -/
theorem get_settings_spec_witness :
    (get_settings envTesting = .ok (.testing (mkTestingSettings envTesting)) ∧
      (mkTestingSettings envTesting).PATH_TO_DB = ":memory:" ∧
      (mkTestingSettings envTesting).PATH_TO_MOVIES_CSV =
        BASE_DIR ++ "/database/seed_data/test_data.csv") ∧
    get_settings envEmpty = (mkSettings envEmpty).map AppSettings.production :=
  ⟨(get_settings_spec envTesting).1 (by decide),
   (get_settings_spec envEmpty).2 (by decide)⟩

/-- C8 counterexample: the claim predicts that with the environment
discriminator not equal to "testing" all three exposed operations are
PostgreSQL-backed; in the empty environment (discriminator defaults to
"developing") `reset_database` is nonetheless the SQLite-backed
implementation. -/
theorem dbmodule_counterexample :
    envGet envEmpty "ENVIRONMENT" "developing" ≠ "testing" ∧
    (initDbModule envEmpty).reset_database = Backend.sqlite ∧
    Backend.sqlite ≠ Backend.postgresql := by decide

/-- C8 amended: at module load time `get_db` and `get_db_contextmanager`
are SQLite-backed iff the discriminator is "testing" (PostgreSQL-backed
otherwise), while `reset_database` is bound to the SQLite implementation
unconditionally, in every environment. -/
theorem dbmodule_binding (env : Env) :
    (initDbModule env).reset_database = Backend.sqlite ∧
    ((initDbModule env).get_db = Backend.sqlite ↔
      envGet env "ENVIRONMENT" "developing" = "testing") ∧
    ((initDbModule env).get_db_contextmanager = Backend.sqlite ↔
      envGet env "ENVIRONMENT" "developing" = "testing") ∧
    (envGet env "ENVIRONMENT" "developing" ≠ "testing" →
      (initDbModule env).get_db = Backend.postgresql ∧
      (initDbModule env).get_db_contextmanager = Backend.postgresql) := by
  unfold initDbModule
  by_cases h : envGet env "ENVIRONMENT" "developing" = "testing" <;> simp [h]

/-- Witness for C8 amended: in the empty environment the two session
operations are PostgreSQL-backed while `reset_database` stays
SQLite-backed. -/
theorem dbmodule_binding_witness :
    (initDbModule envEmpty).reset_database = Backend.sqlite ∧
    (initDbModule envEmpty).get_db = Backend.postgresql ∧
    (initDbModule envEmpty).get_db_contextmanager = Backend.postgresql := by
  have h := dbmodule_binding envEmpty
  exact ⟨h.1, h.2.2.2 (by decide)⟩

/-- C9: constructing the production settings with `POSTGRES_DB_PORT`
absent yields the integer default 5432; with it set to a string that
`int(...)` cannot parse, construction fails fast with an error instead of
coercing or defaulting. -/
theorem postgres_port_spec (env : Env) :
    (env.lookup "POSTGRES_DB_PORT" = none →
      ∃ s, mkSettings env = .ok s ∧ s.POSTGRES_DB_PORT = 5432) ∧
    (∀ v, env.lookup "POSTGRES_DB_PORT" = some v →
      (∃ e0, pyIntParse v = .error e0) →
      ∃ e, mkSettings env = .error e) := by
  constructor
  · intro h
    unfold mkSettings
    rw [h]
    exact ⟨_, rfl, rfl⟩
  · intro v hv hbad
    obtain ⟨e0, he0⟩ := hbad
    unfold mkSettings
    rw [hv]
    dsimp only
    rw [he0]
    exact ⟨e0, rfl⟩

/-- Witness for C9: the empty environment yields port 5432; the
environment setting `POSTGRES_DB_PORT="abc"` makes construction fail. -/
theorem postgres_port_spec_witness :
    (∃ s, mkSettings envEmpty = .ok s ∧ s.POSTGRES_DB_PORT = 5432) ∧
    (∃ e, mkSettings envBadPort = .error e) :=
  ⟨(postgres_port_spec envEmpty).1 (by decide),
   (postgres_port_spec envBadPort).2 "abc" (by decide) ⟨_, rfl⟩⟩

/-- C10: `MovieListItemSchema` applies none of the movie invariants: every
typed payload, whatever its score or date, validates successfully and
unchanged, so out-of-invariant stored records serialize without error on
the list read path. -/
theorem movieListItem_no_invariants (m : MovieListItem) :
    validateMovieListItem m = .ok m := rfl
